import Mathlib

/-!
Verification of the Kandji-Cloudflare device sync reconciliation engine.

This file gives a shallow embedding, in Lean, of the reconciliation logic of
the `kandji-cloudflare-device-sync` service:

* the per-device eligibility filter of `Syncer.Sync` (syncer package),
* `Syncer.deviceMatchesBlueprint` and `Syncer.deviceHasAnyTag`,
* the merged source-serial set, removal set, addition list, defensive
  deduplication and duplicate collapse of `Syncer.Sync`,
* the batch partitioning of `Client.DeleteDevices` / `Client.deleteDeviceBatch`
  and the request behaviour of `Client.AppendDevicesWithDescription`
  (cloudflare package),
* the rate-limit-acquire / HTTP-dispatch event traces of the Cloudflare
  client's operations.

Go maps used as string sets are modelled by `List String` with membership via
`List.contains`; where the Go code iterates a map (unspecified order) we fix
the insertion order of the backing list (`List.dedup` for the key set).  All
claims settled below are insensitive to that ordering choice.
Network effects are modelled by explicit parameters: fetched data appears as
function arguments, and fallible batch submissions take an outcome oracle.
-/

namespace KCSync

/-- Kandji device as consumed by `Syncer.Sync` (fields of `kandji.Device`
that the sync logic reads). -/
structure Device where
  SerialNumber : String
  DeviceName : String
  UserEmail : String
  Platform : String
  Tags : List String
  BlueprintID : String
  BlueprintName : String
deriving DecidableEq, Repr

/-- Blueprint include/exclude filter (`config.BlueprintFilter`). -/
structure BlueprintFilter where
  BlueprintIDs : List String
  BlueprintNames : List String
deriving DecidableEq, Repr

/-- The Kandji-side filter configuration (`config.KandjiConfig`, the fields
read by the filter pipeline). -/
structure KandjiConfig where
  SyncDevicesWithoutOwners : Bool
  SyncMobileDevices : Bool
  IncludeTags : List String
  ExcludeTags : List String
  BlueprintsInclude : BlueprintFilter
  BlueprintsExclude : BlueprintFilter
deriving DecidableEq, Repr

/-- A source (auxiliary) Cloudflare list as seen by `Syncer.Sync` after its
fetches succeed: its id, its type (as returned by `GetListTypeByID`), its
metadata description (as returned by `GetListMetadataByID`) and its item
values (as returned by `GetListItemsByID`). -/
structure SourceList where
  listID : String
  listType : String
  description : String
  items : List String
deriving DecidableEq, Repr

/-- deviceHasAnyTag checks if a device has any of the specified tags
(`Syncer.deviceHasAnyTag`). -/
def deviceHasAnyTag (device : Device) (tags : List String) : Bool :=
  device.Tags.any (fun deviceTag => tags.any (fun t => deviceTag = t))

/-- deviceMatchesBlueprint checks if a device matches the blueprint filters
(`Syncer.deviceMatchesBlueprint`): exclude by id, then exclude by name, then
admit-all when both include sets are empty, then include by id or by name. -/
def deviceMatchesBlueprint (cfg : KandjiConfig) (device : Device) : Bool :=
  let includeIDs := cfg.BlueprintsInclude.BlueprintIDs
  let includeNames := cfg.BlueprintsInclude.BlueprintNames
  let excludeIDs := cfg.BlueprintsExclude.BlueprintIDs
  let excludeNames := cfg.BlueprintsExclude.BlueprintNames
  if excludeIDs.contains device.BlueprintID then false
  else if excludeNames.contains device.BlueprintName then false
  else if includeIDs.isEmpty && includeNames.isEmpty then true
  else if includeIDs.contains device.BlueprintID then true
  else if includeNames.contains device.BlueprintName then true
  else false

/-- Outcome of the sequential eligibility filter of `Syncer.Sync`, recording
which `continue` branch (if any) rejected the device. -/
inductive FilterOutcome where
  | admitted
  | rejectedEmptySerial
  | rejectedNoOwner
  | rejectedMobile
  | rejectedIncludeTags
  | rejectedExcludeTags
  | rejectedBlueprint
deriving DecidableEq, Repr

/-- The per-device filter loop body of `Syncer.Sync`, instrumented with which
rule rejected the device.  The branch order is exactly the source order:
empty serial, ownership, mobile platform, include tags, exclude tags,
blueprint. -/
def filterDevice (cfg : KandjiConfig) (device : Device) : FilterOutcome :=
  if device.SerialNumber = "" then .rejectedEmptySerial
  else if ¬cfg.SyncDevicesWithoutOwners ∧ device.UserEmail = "" then .rejectedNoOwner
  else if ¬cfg.SyncMobileDevices ∧ (device.Platform = "iPhone" ∨ device.Platform = "iPad") then
    .rejectedMobile
  else if cfg.IncludeTags ≠ [] ∧ ¬deviceHasAnyTag device cfg.IncludeTags then
    .rejectedIncludeTags
  else if cfg.ExcludeTags ≠ [] ∧ deviceHasAnyTag device cfg.ExcludeTags then
    .rejectedExcludeTags
  else if ¬deviceMatchesBlueprint cfg device then .rejectedBlueprint
  else .admitted

/-- A device is eligible when no filter rule rejects it. -/
def deviceEligible (cfg : KandjiConfig) (device : Device) : Bool :=
  filterDevice cfg device = .admitted

/-- The devices appended to `filteredKandjiDevices` by the filter loop. -/
def filteredKandjiDevices (cfg : KandjiConfig) (devices : List Device) : List Device :=
  devices.filter (fun d => deviceEligible cfg d)

/-- The `filteredKandjiSerials` slice as accumulated by the filter loop of
`Syncer.Sync`: the loop body appends only to `filteredKandjiDevices`; no
statement in the function ever appends to `filteredKandjiSerials`, so the
slice that seeds the merged source set is always empty. -/
def filteredKandjiSerials (cfg : KandjiConfig) (devices : List Device) : List String :=
  []

/-- The merged source-serial set of `Syncer.Sync` step 2: seeded from
`createSet(filteredKandjiSerials)` and extended with the item values of every
source list whose type equals the target list type (type-mismatched lists are
skipped with `continue`). -/
def mergedSourceSerials (cfg : KandjiConfig) (devices : List Device)
    (targetType : String) (sources : List SourceList) : List String :=
  filteredKandjiSerials cfg devices
    ++ (sources.filter (fun s => s.listType = targetType)).flatMap (fun s => s.items)

/-- The non-fatal reconciliation errors reported by step 2 of `Syncer.Sync`
for source lists whose type does not match the target list type (the
"Source list type does not match target list type" log, one per skipped
list; the cycle continues). -/
def typeMismatchErrors (targetType : String) (sources : List SourceList) : List String :=
  (sources.filter (fun s => s.listType ≠ targetType)).map (fun s => s.listID)

/-- The removal list of `Syncer.Sync` step 4: computed only when
`config.OnMissing == "delete"`, as the target serials (map key set, modelled
as `dedup` of the fetched snapshot) absent from the merged source set.  Under
any other policy (`"ignore"`, `"alert"`) the step is skipped entirely and
`toRemove` stays nil. -/
def toRemoveList (onMissing : String) (targetSerials mergedSerials : List String) :
    List String :=
  if onMissing = "delete" then
    targetSerials.dedup.filter (fun serial => ¬mergedSerials.contains serial)
  else []

/-- Whether step 4 of `Syncer.Sync` issues a `DeleteDevices` call: only when
the policy is `"delete"` and the removal list is nonempty. -/
def deleteRequestIssued (onMissing : String) (targetSerials mergedSerials : List String) :
    Bool :=
  onMissing = "delete" && ¬(toRemoveList onMissing targetSerials mergedSerials).isEmpty

/-- The `deviceWithComment` pairs accumulated into `toAdd` by step 5 of
`Syncer.Sync`. -/
structure DeviceWithComment where
  SerialNumber : String
  Comment : String
deriving DecidableEq, Repr

/-- The comment used for an addition taken from a source list: the
`sourceListDescriptions` map is populated (in step 2) only for lists that
passed the type check and whose metadata description is nonempty; looking up
any other list id yields the Go zero value `""`. -/
def sourceDesc (targetType : String) (s : SourceList) : String :=
  if s.listType = targetType ∧ s.description ≠ "" then s.description else ""

/-- The `toAdd` list of step 5 of `Syncer.Sync`: first every filtered Kandji
device whose serial is absent from the target snapshot set (comment = device
name), then, for every configured source list (the items cache is filled for
all source lists, with no type check), every item value absent from the
target snapshot set (comment = the cached description lookup). -/
def toAddList (cfg : KandjiConfig) (devices : List Device) (targetType : String)
    (sources : List SourceList) (targetSerials : List String) : List DeviceWithComment :=
  (filteredKandjiDevices cfg devices).filterMap
    (fun d =>
      if targetSerials.contains d.SerialNumber then none
      else some ⟨d.SerialNumber, d.DeviceName⟩)
  ++ sources.flatMap
    (fun s => s.items.filterMap
      (fun v =>
        if targetSerials.contains v then none
        else some ⟨v, sourceDesc targetType s⟩))

/-- The defensive deduplication pass of `Syncer.Sync`: split `toAdd` into the
entries whose serial is absent from the (same, in-memory) target snapshot set
(`deduped`, first component) and the serials already present there
(`intersection`, second component), preserving order. -/
def dedupAdditions (targetSerials : List String) :
    List DeviceWithComment → List DeviceWithComment × List String
  | [] => ([], [])
  | d :: rest =>
    let p := dedupAdditions targetSerials rest
    if targetSerials.contains d.SerialNumber then (p.1, d.SerialNumber :: p.2)
    else (d :: p.1, p.2)

/-- The duplicate-collapse pass building `cfDevices` in `Syncer.Sync`: keep
the first occurrence of each serial (the `serialSeen` map), skipping later
duplicates. -/
def collapseDuplicates (seen : List String) :
    List DeviceWithComment → List DeviceWithComment
  | [] => []
  | d :: rest =>
    if seen.contains d.SerialNumber then collapseDuplicates seen rest
    else d :: collapseDuplicates (d.SerialNumber :: seen) rest

/-- The reconciliation plan one `Syncer.Sync` cycle computes: the removal
list of step 4 and the final addition payload (`cfDevices`) of step 5. -/
structure Plan where
  toRemove : List String
  toAdd : List DeviceWithComment
deriving DecidableEq, Repr

/-- One cycle's plan computation, assembled exactly as `Syncer.Sync` does:
merged source set, policy-gated removals, target-filtered additions,
defensive deduplication, duplicate collapse. -/
def reconcile (onMissing : String) (cfg : KandjiConfig) (devices : List Device)
    (targetType : String) (sources : List SourceList) (targetSerials : List String) :
    Plan :=
  let merged := mergedSourceSerials cfg devices targetType sources
  let adds := toAddList cfg devices targetType sources targetSerials
  { toRemove := toRemoveList onMissing targetSerials merged
    toAdd := collapseDuplicates [] (dedupAdditions targetSerials adds).1 }

/-- Applying a plan to a target snapshot: the removed serials disappear and
the appended serials are added (this is the state of the target list after
the cycle's `DeleteDevices` and append calls succeed). -/
def applyPlan (targetSerials : List String) (p : Plan) : List String :=
  targetSerials.filter (fun s => ¬p.toRemove.contains s)
    ++ p.toAdd.map (fun d => d.SerialNumber)

/-- Fuel-guarded helper for `chunkBatches`; the fuel strictly exceeds the
number of recursive steps whenever it starts at the list length, keeping the
recursion structural (so that the kernel can evaluate it). -/
def chunkAux (batchSize : Nat) : Nat → List α → List (List α)
  | _, [] => []
  | 0, _ :: _ => []
  | fuel + 1, a :: rest =>
    (a :: rest.take (batchSize - 1)) :: chunkAux batchSize fuel (rest.drop (batchSize - 1))

/-- The contiguous slices `serialNumbers[i:end]` produced by the batching
loop of `Client.DeleteDevices` (`for i := 0; i < len; i += batchSize`).  The
head batch is `l.take batchSize` and the rest recurses on `l.drop batchSize`.
(The Go loop does not terminate for `batchSize <= 0`, a configuration error
per the spec; this definition treats `batchSize = 0` like `1`.) -/
def chunkBatches (batchSize : Nat) (l : List α) : List (List α) :=
  chunkAux batchSize l.length l

/-- The request payloads issued by `Client.AppendDevicesWithDescription`: the
function returns immediately on an empty input, and otherwise sends the whole
`items` slice as the `append` field of a single PATCH request — the
`batchSize` parameter is never read and no partitioning loop exists. -/
def appendRequestBatches (items : List DeviceWithComment) (batchSize : Nat) :
    List (List DeviceWithComment) :=
  if items = [] then [] else [items]

/-- Per-device result entry of the cloudflare package (`DeviceResult`); the
Go `error` value is modelled by its message string. -/
structure DeviceResult where
  SerialNumber : String
  Success : Bool
  Error : String
deriving DecidableEq, Repr

/-- Aggregate outcome of a bulk operation (`BulkResult`). -/
structure BulkResult where
  SuccessCount : Nat
  FailedDevices : List DeviceResult
  Errors : List String
deriving DecidableEq, Repr

/-- How the single PATCH request of one `deleteDeviceBatch` call turns out:
marshal failure, transport failure, non-2xx HTTP status, body decode failure,
API-reported failure, or success. -/
inductive BatchOutcome where
  | marshalError
  | transportError
  | httpError (status : Nat)
  | decodeError
  | apiFailure
  | ok
deriving DecidableEq, Repr

/-- Whether a batch outcome is the success case. -/
def isOkOutcome : BatchOutcome → Bool
  | .ok => true
  | _ => false

/-- The per-item failure entries one `Client.deleteDeviceBatch` call records
for each empty serial number in its input (the loop building `removeItems`). -/
def emptySerialFailures (serialNumbers : List String) : List DeviceResult :=
  (serialNumbers.filter (fun s => s = "")).map
    (fun s => DeviceResult.mk s false "empty serial number")

/-- The nonempty serials one `Client.deleteDeviceBatch` call sends as the
`remove` field of its PATCH request. -/
def removeItemsOf (serialNumbers : List String) : List String :=
  serialNumbers.filter (fun s => s ≠ "")

/-- One `Client.deleteDeviceBatch` call: empty serials are recorded
individually in `FailedDevices`; if any serials remain, the PATCH request is
attempted and any batch-level failure appends exactly one entry to `Errors`
(never to `FailedDevices`); on success `SuccessCount` is the number of
serials sent. -/
def deleteDeviceBatch (serialNumbers : List String) (outcome : BatchOutcome) :
    BulkResult :=
  if removeItemsOf serialNumbers = [] then ⟨0, emptySerialFailures serialNumbers, []⟩
  else
    match outcome with
    | .marshalError =>
      ⟨0, emptySerialFailures serialNumbers, ["failed to marshal PATCH body"]⟩
    | .transportError =>
      ⟨0, emptySerialFailures serialNumbers, ["failed to execute PATCH request"]⟩
    | .httpError status =>
      ⟨0, emptySerialFailures serialNumbers, ["PATCH failed: HTTP " ++ toString status]⟩
    | .decodeError => ⟨0, emptySerialFailures serialNumbers, ["decode failed"]⟩
    | .apiFailure => ⟨0, emptySerialFailures serialNumbers, ["PATCH failed"]⟩
    | .ok => ⟨(removeItemsOf serialNumbers).length, emptySerialFailures serialNumbers, []⟩

/-- The zero `BulkResult` that `Client.DeleteDevices` starts from. -/
def emptyBulk : BulkResult := ⟨0, [], []⟩

/-- Merging one batch outcome into the running aggregate, as the loop body of
`Client.DeleteDevices` does (`SuccessCount +=`, append `FailedDevices`,
append `Errors`). -/
def combineBulk (r1 r2 : BulkResult) : BulkResult :=
  ⟨r1.SuccessCount + r2.SuccessCount, r1.FailedDevices ++ r2.FailedDevices,
    r1.Errors ++ r2.Errors⟩

/-- Running the batches of `Client.DeleteDevices` in order, starting at batch
index `i`, against an outcome oracle (batch index ↦ how its PATCH request
turns out).  Every batch is processed regardless of earlier outcomes. -/
def runBatches (outcomes : Nat → BatchOutcome) (i : Nat) :
    List (List String) → BulkResult
  | [] => emptyBulk
  | b :: rest => combineBulk (deleteDeviceBatch b (outcomes i)) (runBatches outcomes (i + 1) rest)

/-- `Client.DeleteDevices`: partition the serials into contiguous batches of
at most `batchSize` and submit them sequentially, aggregating the outcomes.
(The early return on an empty input coincides with running zero batches.) -/
def DeleteDevices (serialNumbers : List String) (batchSize : Nat)
    (outcomes : Nat → BatchOutcome) : BulkResult :=
  runBatches outcomes 0 (chunkBatches batchSize serialNumbers)

/-- Observable events of one Cloudflare client operation, in program order:
a blocking token acquisition from the Cloudflare rate-limit pool
(`rateLimiter.WaitForCloudflare`) or an HTTP dispatch (`httpClient.Do`). -/
inductive CFEvent where
  | acquireToken
  | dispatch
deriving DecidableEq, Repr

/-- A trace is rate-limit covered when every HTTP dispatch is immediately
preceded by a token acquisition.  The flag records whether the previous event
was an acquisition. -/
def coveredFrom (armed : Bool) : List CFEvent → Bool
  | [] => true
  | .acquireToken :: rest => coveredFrom true rest
  | .dispatch :: rest => armed && coveredFrom false rest

/-- Every dispatch in the trace acquires a token immediately before. -/
def rateLimitCovered (events : List CFEvent) : Bool :=
  coveredFrom false events

/-- Event trace of `Client.makeRequest` (happy path): it first calls
`rateLimiter.WaitForCloudflare` and then `httpClient.Do`. -/
def makeRequestTrace : List CFEvent :=
  [.acquireToken, .dispatch]

/-- Event trace of `Client.ValidateListExistsByID`: its only request goes
through `makeRequest`. -/
def validateListExistsTrace : List CFEvent :=
  makeRequestTrace

/-- Event trace of `Client.GetListTypeByID`: it builds the request itself and
calls `httpClient.Do` directly — no rate-limiter call appears in its body. -/
def getListTypeByIDTrace : List CFEvent :=
  [.dispatch]

/-- Event trace of `Client.GetListMetadataByID`: it calls `httpClient.Do`
directly, with no rate-limiter call. -/
def getListMetadataByIDTrace : List CFEvent :=
  [.dispatch]

/-- Event trace of `Client.GetListItemsByID`: its pagination loop runs at
least once and each iteration calls `httpClient.Do` directly, with no
rate-limiter call (`extraPages` = iterations beyond the first). -/
def getListItemsByIDTrace (extraPages : Nat) : List CFEvent :=
  (List.replicate (extraPages + 1) CFEvent.dispatch)

/-- Event trace of `Client.GetListItems` (target list): each pagination
iteration goes through `makeRequest`. -/
def getListItemsTrace (extraPages : Nat) : List CFEvent :=
  (List.replicate (extraPages + 1) makeRequestTrace).flatten

/-- Event trace of `Client.AppendDevicesWithDescription`: nothing on an empty
input, otherwise one direct `httpClient.Do` with no rate-limiter call. -/
def appendDevicesTrace (items : List DeviceWithComment) : List CFEvent :=
  if items = [] then [] else [.dispatch]

/-- Event trace of `Client.deleteDeviceBatch`: nothing when every serial is
empty, otherwise one direct `httpClient.Do` with no rate-limiter call. -/
def deleteDeviceBatchTrace (serialNumbers : List String) : List CFEvent :=
  if serialNumbers.filter (fun s => s ≠ "") = [] then [] else [.dispatch]

/-- Rule 1 of the eligibility filter, stated positively: nonempty serial. -/
def passesSerialRule (device : Device) : Prop :=
  device.SerialNumber ≠ ""

/-- Rule 2: not rejected for lacking an owner — the ownership rejection fires
exactly when ownerless devices are not synced and the owner-email is empty. -/
def passesOwnerRule (cfg : KandjiConfig) (device : Device) : Prop :=
  ¬(cfg.SyncDevicesWithoutOwners = false ∧ device.UserEmail = "")

/-- Rule 3: not rejected as a mobile device — the mobile rejection fires
exactly when mobile devices are not synced and the platform is iPhone or
iPad. -/
def passesMobileRule (cfg : KandjiConfig) (device : Device) : Prop :=
  ¬(cfg.SyncMobileDevices = false
    ∧ (device.Platform = "iPhone" ∨ device.Platform = "iPad"))

/-- Rule 4: not rejected by the include-tag rule, which fires exactly when
the include-tag set is nonempty and the device carries none of its tags. -/
def passesIncludeTagsRule (cfg : KandjiConfig) (device : Device) : Prop :=
  ¬(cfg.IncludeTags ≠ [] ∧ deviceHasAnyTag device cfg.IncludeTags = false)

/-- Rule 5: not rejected by the exclude-tag rule, which fires exactly when
the exclude-tag set is nonempty and the device carries one of its tags. -/
def passesExcludeTagsRule (cfg : KandjiConfig) (device : Device) : Prop :=
  ¬(cfg.ExcludeTags ≠ [] ∧ deviceHasAnyTag device cfg.ExcludeTags = true)

/-- Rule 6: the blueprint filter admits the device. -/
def passesBlueprintRule (cfg : KandjiConfig) (device : Device) : Prop :=
  deviceMatchesBlueprint cfg device = true

/-- Permissive configuration fixture: no ownership requirement, mobile
allowed, no tag or blueprint filters. -/
def cfg0 : KandjiConfig := ⟨true, true, [], [], ⟨[], []⟩, ⟨[], []⟩⟩

/-- Fixture: an eligible Kandji device with serial "S1". -/
def d1 : Device := ⟨"S1", "laptop-1", "user@example.com", "Mac", [], "bp1", "Blueprint One"⟩

/-- Fixture: a source list whose type matches a SERIAL target. -/
def srcA : SourceList := ⟨"cfListA", "SERIAL", "Source A", ["X1"]⟩

/-- Fixture: a source list whose type does not match a SERIAL target. -/
def srcB : SourceList := ⟨"cfListB", "IP", "Source B", ["10.0.0.1"]⟩

theorem chunkAux_flatten {α : Type} (batchSize : Nat) :
    ∀ (fuel : Nat) (l : List α), l.length ≤ fuel →
      (chunkAux batchSize fuel l).flatten = l := by
  intro fuel
  induction fuel with
  | zero =>
    intro l h
    have hl : l = [] := List.eq_nil_of_length_eq_zero (Nat.le_zero.mp h)
    subst hl
    rfl
  | succ n ih =>
    intro l h
    cases l with
    | nil => rfl
    | cons a rest =>
      have hlen : (rest.drop (batchSize - 1)).length ≤ n := by
        rw [List.length_drop]
        simp only [List.length_cons] at h
        omega
      simp only [chunkAux, List.flatten_cons, ih _ hlen, List.cons_append,
        List.take_append_drop]

theorem chunkAux_length {α : Type} (batchSize : Nat) (hB : 1 ≤ batchSize) :
    ∀ (fuel : Nat) (l : List α), l.length ≤ fuel →
      (chunkAux batchSize fuel l).length = (l.length + batchSize - 1) / batchSize := by
  intro fuel
  induction fuel with
  | zero =>
    intro l h
    have hl : l = [] := List.eq_nil_of_length_eq_zero (Nat.le_zero.mp h)
    subst hl
    simp [chunkAux, Nat.div_eq_of_lt (by omega : batchSize - 1 < batchSize)]
  | succ n ih =>
    intro l h
    cases l with
    | nil =>
      simp [chunkAux, Nat.div_eq_of_lt (by omega : batchSize - 1 < batchSize)]
    | cons a rest =>
      have hlen : (rest.drop (batchSize - 1)).length ≤ n := by
        rw [List.length_drop]
        simp only [List.length_cons] at h
        omega
      simp only [chunkAux, List.length_cons, ih _ hlen, List.length_drop]
      have h2 : rest.length + 1 + batchSize - 1 = rest.length + batchSize := by omega
      rw [h2, Nat.add_div_right _ (by omega : 0 < batchSize)]
      congr 1
      rcases le_or_lt (batchSize - 1) rest.length with h3 | h3
      · congr 1
        omega
      · rw [Nat.div_eq_of_lt (by omega), Nat.div_eq_of_lt (by omega)]

theorem chunkAux_sizes {α : Type} (batchSize : Nat) (hB : 1 ≤ batchSize) :
    ∀ (fuel : Nat) (l : List α), ∀ c ∈ chunkAux batchSize fuel l, c.length ≤ batchSize := by
  intro fuel
  induction fuel with
  | zero =>
    intro l c hc
    cases l <;> simp [chunkAux] at hc
  | succ n ih =>
    intro l c hc
    cases l with
    | nil => simp [chunkAux] at hc
    | cons a rest =>
      simp only [chunkAux, List.mem_cons] at hc
      rcases hc with rfl | hc
      · simp only [List.length_cons, List.length_take]
        have := Nat.min_le_left (batchSize - 1) rest.length
        omega
      · exact ih _ c hc

theorem chunkBatches_flatten {α : Type} (batchSize : Nat) (l : List α) :
    (chunkBatches batchSize l).flatten = l :=
  chunkAux_flatten batchSize l.length l le_rfl

theorem chunkBatches_length {α : Type} (batchSize : Nat) (hB : 1 ≤ batchSize) (l : List α) :
    (chunkBatches batchSize l).length = (l.length + batchSize - 1) / batchSize :=
  chunkAux_length batchSize hB l.length l le_rfl

/-- C5, counterexample: `Client.AppendDevicesWithDescription` with three items
and batch size 1 issues a single request holding all three items, not the
ceil(3/1) = 3 batches of size at most 1 the claim requires. -/
theorem claim_C5_append_ignores_batch_size_cex :
    appendRequestBatches [⟨"A", ""⟩, ⟨"B", ""⟩, ⟨"C", ""⟩] 1
      = [[⟨"A", ""⟩, ⟨"B", ""⟩, ⟨"C", ""⟩]]
  ∧ (appendRequestBatches [⟨"A", ""⟩, ⟨"B", ""⟩, ⟨"C", ""⟩] 1).length ≠ (3 + 1 - 1) / 1
  ∧ ¬(∀ c ∈ appendRequestBatches [⟨"A", ""⟩, ⟨"B", ""⟩, ⟨"C", ""⟩] 1, c.length ≤ 1) := by
  decide

/-- C5, amended: `Client.DeleteDevices` partitions its input into exactly
ceil(N/B) contiguous batches of size at most B whose concatenation is the
input (each element appearing exactly once), while
`Client.AppendDevicesWithDescription` ignores `batchSize` and submits the
whole input as one request (no request when the input is empty). -/
theorem claim_C5_removals_partition_additions_single_request :
    (∀ (l : List String) (batchSize : Nat), 1 ≤ batchSize →
      (chunkBatches batchSize l).flatten = l
      ∧ (∀ c ∈ chunkBatches batchSize l, c.length ≤ batchSize)
      ∧ (chunkBatches batchSize l).length = (l.length + batchSize - 1) / batchSize)
  ∧ (∀ (items : List DeviceWithComment) (batchSize : Nat),
      (appendRequestBatches items batchSize).flatten = items
      ∧ (appendRequestBatches items batchSize).length ≤ 1) := by
  constructor
  · intro l batchSize hB
    exact ⟨chunkBatches_flatten batchSize l,
      fun c hc => chunkAux_sizes batchSize hB l.length l c hc,
      chunkBatches_length batchSize hB l⟩
  · intro items batchSize
    by_cases h : items = [] <;> simp [appendRequestBatches, h]

/-- C5, witness: the partition half of the amended theorem applied at a
concrete input with batch size 2. -/
theorem claim_C5_removals_partition_witness :
    1 ≤ 2
  ∧ ((chunkBatches 2 ["a", "b", "c"]).flatten = ["a", "b", "c"]
      ∧ (∀ c ∈ chunkBatches 2 ["a", "b", "c"], c.length ≤ 2)
      ∧ (chunkBatches 2 ["a", "b", "c"]).length = ((["a", "b", "c"] : List String).length + 2 - 1) / 2) :=
  ⟨by decide, claim_C5_removals_partition_additions_single_request.1 ["a", "b", "c"] 2 (by decide)⟩

theorem deleteDeviceBatch_FailedDevices (b : List String) (o : BatchOutcome) :
    (deleteDeviceBatch b o).FailedDevices = emptySerialFailures b := by
  by_cases h : removeItemsOf b = []
  · unfold deleteDeviceBatch
    rw [if_pos h]
  · cases o <;> (unfold deleteDeviceBatch; rw [if_neg h])

theorem deleteDeviceBatch_SuccessCount (b : List String) (o : BatchOutcome) :
    (deleteDeviceBatch b o).SuccessCount
      = if isOkOutcome o then (removeItemsOf b).length else 0 := by
  by_cases h : removeItemsOf b = []
  · unfold deleteDeviceBatch
    rw [if_pos h, h]
    cases o <;> simp [isOkOutcome]
  · cases o <;> (unfold deleteDeviceBatch; rw [if_neg h]) <;> simp [isOkOutcome]

theorem deleteDeviceBatch_Errors_length (b : List String) (o : BatchOutcome) :
    (deleteDeviceBatch b o).Errors.length
      = if !decide (removeItemsOf b = []) && !isOkOutcome o then 1 else 0 := by
  by_cases h : removeItemsOf b = []
  · unfold deleteDeviceBatch
    rw [if_pos h]
    simp [h]
  · cases o <;> (unfold deleteDeviceBatch; rw [if_neg h]) <;> simp [isOkOutcome, h]

theorem runBatches_FailedDevices (outcomes : Nat → BatchOutcome) :
    ∀ (i : Nat) (bs : List (List String)),
      (runBatches outcomes i bs).FailedDevices
        = bs.flatMap (fun b => emptySerialFailures b) := by
  intro i bs
  induction bs generalizing i with
  | nil => rfl
  | cons b rest ih =>
    simp [runBatches, combineBulk, deleteDeviceBatch_FailedDevices, ih]

theorem runBatches_Errors_length (outcomes : Nat → BatchOutcome) :
    ∀ (i : Nat) (bs : List (List String)),
      (runBatches outcomes i bs).Errors.length
        = (List.enumFrom i bs).countP
            (fun p => !decide (removeItemsOf p.2 = []) && !isOkOutcome (outcomes p.1)) := by
  intro i bs
  induction bs generalizing i with
  | nil => rfl
  | cons b rest ih =>
    simp only [runBatches, combineBulk, List.length_append,
      deleteDeviceBatch_Errors_length, ih, List.enumFrom, List.countP_cons]
    split <;> omega

theorem runBatches_SuccessCount (outcomes : Nat → BatchOutcome) :
    ∀ (i : Nat) (bs : List (List String)),
      (runBatches outcomes i bs).SuccessCount
        = ((List.enumFrom i bs).map
            (fun p => if isOkOutcome (outcomes p.1) then (removeItemsOf p.2).length
              else 0)).sum := by
  intro i bs
  induction bs generalizing i with
  | nil => rfl
  | cons b rest ih =>
    simp [runBatches, combineBulk, deleteDeviceBatch_SuccessCount, ih, List.enumFrom]

theorem flatMap_emptySerialFailures :
    ∀ (bs : List (List String)),
      bs.flatMap (fun b => emptySerialFailures b) = emptySerialFailures bs.flatten := by
  intro bs
  induction bs with
  | nil => rfl
  | cons b rest ih =>
    simp only [List.flatMap_cons, List.flatten_cons, emptySerialFailures,
      List.filter_append, List.map_append] at ih ⊢
    rw [ih]

/-- C4, counterexample: deleting `["A"]` in one batch whose PATCH request
fails at transport level yields a batch-level entry in `Errors` but an empty
`FailedDevices` list — the identifier "A" is not marked failed per-device;
with two one-element batches where only the first fails, the second batch is
still attempted and succeeds. -/
theorem claim_C4_batch_failure_not_marked_per_device_cex :
    (DeleteDevices ["A"] 1 (fun _ => BatchOutcome.transportError)).Errors
      = ["failed to execute PATCH request"]
  ∧ (DeleteDevices ["A"] 1 (fun _ => BatchOutcome.transportError)).FailedDevices = []
  ∧ (DeleteDevices ["A", "B"] 1
      (fun i => if i = 0 then BatchOutcome.transportError else BatchOutcome.ok)).SuccessCount
      = 1 := by
  decide

/-- C4, amended: for every input, batch size and per-batch outcome, the
per-device failure list of `Client.DeleteDevices` contains exactly the
empty-serial entries (identifiers of a failed batch are never added to it);
each batch-level failure contributes exactly one entry to the aggregate
`Errors` list; and every batch is attempted regardless of earlier failures,
so the success count sums the sizes of all successfully submitted batches. -/
theorem claim_C4_batch_failure_recorded_as_batch_error :
    ∀ (serialNumbers : List String) (batchSize : Nat) (outcomes : Nat → BatchOutcome),
      (DeleteDevices serialNumbers batchSize outcomes).FailedDevices
        = emptySerialFailures serialNumbers
    ∧ (DeleteDevices serialNumbers batchSize outcomes).Errors.length
        = (List.enumFrom 0 (chunkBatches batchSize serialNumbers)).countP
            (fun p => !decide (removeItemsOf p.2 = []) && !isOkOutcome (outcomes p.1))
    ∧ (DeleteDevices serialNumbers batchSize outcomes).SuccessCount
        = ((List.enumFrom 0 (chunkBatches batchSize serialNumbers)).map
            (fun p => if isOkOutcome (outcomes p.1) then (removeItemsOf p.2).length
              else 0)).sum := by
  intro serialNumbers batchSize outcomes
  refine ⟨?_, runBatches_Errors_length outcomes 0 _, runBatches_SuccessCount outcomes 0 _⟩
  rw [DeleteDevices, runBatches_FailedDevices, flatMap_emptySerialFailures,
    chunkBatches_flatten]

/-- C1: with one eligible Kandji device (serial "S1"), one type-matching
source list and one type-mismatched source list, the merged source-serial set
that removals are computed against contains only the matching list's item
("X1") — the eligible device's serial "S1" is missing, because the
`filteredKandjiSerials` slice seeding the set is never appended to.  The
mismatched list is skipped and reported as a non-fatal error, as claimed. -/
theorem claim_C1_merged_set_omits_eligible_serial :
    deviceEligible cfg0 d1 = true
  ∧ mergedSourceSerials cfg0 [d1] "SERIAL" [srcA, srcB] = ["X1"]
  ∧ (mergedSourceSerials cfg0 [d1] "SERIAL" [srcA, srcB]).contains "S1" = false
  ∧ typeMismatchErrors "SERIAL" [srcA, srcB] = ["cfListB"] := by
  decide

/-- C2: among the Cloudflare client's operations, only those routed through
`makeRequest` (list validation and target-list item listing) acquire a
rate-limit token immediately before dispatch; the list-type fetch, metadata
fetch, item listing by ID, append and delete operations dispatch their HTTP
requests without any token acquisition. -/
theorem claim_C2_cloudflare_requests_bypass_rate_limiter :
    rateLimitCovered makeRequestTrace = true
  ∧ rateLimitCovered validateListExistsTrace = true
  ∧ rateLimitCovered (getListItemsTrace 2) = true
  ∧ rateLimitCovered getListTypeByIDTrace = false
  ∧ rateLimitCovered getListMetadataByIDTrace = false
  ∧ rateLimitCovered (getListItemsByIDTrace 0) = false
  ∧ rateLimitCovered (appendDevicesTrace [⟨"S1", "laptop-1"⟩]) = false
  ∧ rateLimitCovered (deleteDeviceBatchTrace ["S1"]) = false := by
  decide

/-- C3, counterexample: with policy "alert", a target snapshot `["A"]` and an
empty merged source set, the claim expects the removal list `["A"]` to be
computed and surfaced; the code computes nothing — the removal list is empty
and no delete request is issued. -/
theorem claim_C3_alert_computes_no_removals_cex :
    toRemoveList "alert" ["A"] [] = [] ∧ deleteRequestIssued "alert" ["A"] [] = false := by
  decide

/-- C3, amended: removals are computed only under the "delete" policy; under
"ignore" and equally under "alert" the removal list is empty and no delete
request is issued ("alert" is accepted by configuration validation but
behaves exactly like "ignore" in the cycle). -/
theorem claim_C3_removals_only_under_delete :
    ∀ (targetSerials mergedSerials : List String),
      toRemoveList "ignore" targetSerials mergedSerials = []
    ∧ toRemoveList "alert" targetSerials mergedSerials = []
    ∧ deleteRequestIssued "ignore" targetSerials mergedSerials = false
    ∧ deleteRequestIssued "alert" targetSerials mergedSerials = false := by
  intro targetSerials mergedSerials
  exact ⟨rfl, rfl, rfl, rfl⟩

/-- C6: reconciliation is not idempotent.  With policy "delete", one eligible
device (serial "S1"), no source lists and an empty target, the first plan
adds "S1" and removes nothing; after applying that plan, a second reconcile
against the updated snapshot proposes removing "S1" (because the merged
source set never contains eligible Kandji serials), so the second plan is not
empty. -/
theorem claim_C6_reconcile_not_idempotent :
    reconcile "delete" cfg0 [d1] "SERIAL" [] [] = ⟨[], [⟨"S1", "laptop-1"⟩]⟩
  ∧ applyPlan [] (reconcile "delete" cfg0 [d1] "SERIAL" [] []) = ["S1"]
  ∧ (reconcile "delete" cfg0 [d1] "SERIAL" []
      (applyPlan [] (reconcile "delete" cfg0 [d1] "SERIAL" [] []))).toRemove = ["S1"] := by
  decide

theorem contains_eq_true_iff_mem (l : List String) (a : String) :
    l.contains a = true ↔ a ∈ l := by
  simp [List.contains, List.elem_iff]

theorem mem_toAddList_not_in_target {d : DeviceWithComment} {cfg : KandjiConfig}
    {devices : List Device} {targetType : String} {sources : List SourceList}
    {targetSerials : List String}
    (hd : d ∈ toAddList cfg devices targetType sources targetSerials) :
    targetSerials.contains d.SerialNumber = false := by
  unfold toAddList at hd
  rcases List.mem_append.mp hd with h | h
  · rcases List.mem_filterMap.mp h with ⟨dev, _, hsome⟩
    by_cases hc : targetSerials.contains dev.SerialNumber = true
    · rw [if_pos hc] at hsome
      exact Option.noConfusion hsome
    · simp only [Bool.not_eq_true] at hc
      simp only [hc, Bool.false_eq_true, if_false, Option.some.injEq] at hsome
      rw [← hsome]
      exact hc
  · rcases List.mem_flatMap.mp h with ⟨s, _, hinner⟩
    rcases List.mem_filterMap.mp hinner with ⟨v, _, hsome⟩
    by_cases hc : targetSerials.contains v = true
    · rw [if_pos hc] at hsome
      exact Option.noConfusion hsome
    · simp only [Bool.not_eq_true] at hc
      simp only [hc, Bool.false_eq_true, if_false, Option.some.injEq] at hsome
      rw [← hsome]
      exact hc

theorem mem_dedupAdditions_fst (targetSerials : List String) :
    ∀ (l : List DeviceWithComment) (d : DeviceWithComment),
      d ∈ (dedupAdditions targetSerials l).1 → d ∈ l := by
  intro l
  induction l with
  | nil => intro d hd; simp [dedupAdditions] at hd
  | cons a rest ih =>
    intro d hd
    by_cases hc : targetSerials.contains a.SerialNumber = true
    · simp only [dedupAdditions, hc, if_true] at hd
      exact List.mem_cons_of_mem a (ih d hd)
    · simp only [Bool.not_eq_true] at hc
      simp only [dedupAdditions, hc, Bool.false_eq_true, if_false, List.mem_cons] at hd
      rcases hd with rfl | hd
      · exact List.mem_cons_self _ _
      · exact List.mem_cons_of_mem a (ih d hd)

theorem mem_collapseDuplicates :
    ∀ (seen : List String) (l : List DeviceWithComment) (d : DeviceWithComment),
      d ∈ collapseDuplicates seen l → d ∈ l := by
  intro seen l
  induction l generalizing seen with
  | nil => intro d hd; simp [collapseDuplicates] at hd
  | cons a rest ih =>
    intro d hd
    by_cases hc : seen.contains a.SerialNumber = true
    · simp only [collapseDuplicates, hc, if_true] at hd
      exact List.mem_cons_of_mem a (ih seen d hd)
    · simp only [Bool.not_eq_true] at hc
      simp only [collapseDuplicates, hc, Bool.false_eq_true, if_false, List.mem_cons] at hd
      rcases hd with rfl | hd
      · exact List.mem_cons_self _ _
      · exact List.mem_cons_of_mem a (ih _ d hd)

theorem mem_toRemoveList_mem_target {s : String} {onMissing : String}
    {targetSerials mergedSerials : List String}
    (hs : s ∈ toRemoveList onMissing targetSerials mergedSerials) :
    s ∈ targetSerials := by
  unfold toRemoveList at hs
  by_cases h : onMissing = "delete"
  · rw [if_pos h] at hs
    exact List.mem_dedup.mp (List.mem_filter.mp hs).1
  · rw [if_neg h] at hs
    simp at hs

/-- C7: in every reconciliation plan, every removal is a value present in the
target snapshot, no proposed addition's serial is present in the target
snapshot, and consequently the addition serials and the removal set are
disjoint. -/
theorem claim_C7_additions_removals_disjoint :
    ∀ (onMissing : String) (cfg : KandjiConfig) (devices : List Device)
      (targetType : String) (sources : List SourceList) (targetSerials : List String),
      ((reconcile onMissing cfg devices targetType sources targetSerials).toRemove.all
        (fun s => targetSerials.contains s)) = true
    ∧ ((reconcile onMissing cfg devices targetType sources targetSerials).toAdd.all
        (fun d => !targetSerials.contains d.SerialNumber)) = true
    ∧ ((reconcile onMissing cfg devices targetType sources targetSerials).toAdd.map
        (fun d => d.SerialNumber))
        ∩ (reconcile onMissing cfg devices targetType sources targetSerials).toRemove
        = [] := by
  intro onMissing cfg devices targetType sources targetSerials
  have hadd : ∀ d ∈ (reconcile onMissing cfg devices targetType sources targetSerials).toAdd,
      targetSerials.contains d.SerialNumber = false := by
    intro d hd
    simp only [reconcile] at hd
    exact mem_toAddList_not_in_target
      (mem_dedupAdditions_fst targetSerials _ d (mem_collapseDuplicates [] _ d hd))
  have hrem : ∀ s ∈ (reconcile onMissing cfg devices targetType sources targetSerials).toRemove,
      s ∈ targetSerials := by
    intro s hs
    simp only [reconcile] at hs
    exact mem_toRemoveList_mem_target hs
  refine ⟨List.all_eq_true.mpr ?_, List.all_eq_true.mpr ?_, ?_⟩
  · intro s hs
    exact (contains_eq_true_iff_mem targetSerials s).mpr (hrem s hs)
  · intro d hd
    simp only [hadd d hd, Bool.not_false]
  · rw [List.inter_eq_nil_iff_disjoint]
    intro x hx1 hx2
    rcases List.mem_map.mp hx1 with ⟨d, hd, rfl⟩
    have h1 := hadd d hd
    have h2 := (contains_eq_true_iff_mem targetSerials d.SerialNumber).mpr (hrem _ hx2)
    rw [h1] at h2
    exact Bool.false_ne_true h2

/-- C10: the defensive deduplication pass of `Syncer.Sync` never drops
anything: because the `toAdd` list is built by filtering against the very
same in-memory target snapshot set, the pass returns the addition list
unchanged and an empty intersection, for every input. -/
theorem claim_C10_defensive_dedup_identity :
    ∀ (cfg : KandjiConfig) (devices : List Device) (targetType : String)
      (sources : List SourceList) (targetSerials : List String),
      dedupAdditions targetSerials (toAddList cfg devices targetType sources targetSerials)
        = (toAddList cfg devices targetType sources targetSerials, []) := by
  intro cfg devices targetType sources targetSerials
  have key : ∀ (l : List DeviceWithComment),
      (∀ d ∈ l, targetSerials.contains d.SerialNumber = false) →
      dedupAdditions targetSerials l = (l, []) := by
    intro l
    induction l with
    | nil => intro _; rfl
    | cons d rest ih =>
      intro h
      have hd := h d (List.mem_cons_self d rest)
      have hrest := ih (fun x hx => h x (List.mem_cons_of_mem d hx))
      simp only [dedupAdditions, hd, Bool.false_eq_true, if_false, hrest]
  exact key _ (fun d hd => mem_toAddList_not_in_target hd)

/-- C8: a match in the blueprint exclude set — by id or by name, each checked
independently — rejects the device regardless of any include-set match; and
when the device is not excluded and both include sets are empty, the
blueprint filter admits it. -/
theorem claim_C8_blueprint_exclude_priority :
    ∀ (cfg : KandjiConfig) (device : Device),
      ((cfg.BlueprintsExclude.BlueprintIDs.contains device.BlueprintID = true
          ∨ cfg.BlueprintsExclude.BlueprintNames.contains device.BlueprintName = true) →
        deviceMatchesBlueprint cfg device = false)
    ∧ (cfg.BlueprintsExclude.BlueprintIDs.contains device.BlueprintID = false →
        cfg.BlueprintsExclude.BlueprintNames.contains device.BlueprintName = false →
        cfg.BlueprintsInclude.BlueprintIDs = [] →
        cfg.BlueprintsInclude.BlueprintNames = [] →
        deviceMatchesBlueprint cfg device = true) := by
  intro cfg device
  constructor
  · intro h
    rcases h with h | h
    · have hm := (contains_eq_true_iff_mem _ _).mp h
      simp [deviceMatchesBlueprint, hm]
    · have hm := (contains_eq_true_iff_mem _ _).mp h
      simp [deviceMatchesBlueprint, hm]
  · intro h1 h2 h3 h4
    have hn1 : device.BlueprintID ∉ cfg.BlueprintsExclude.BlueprintIDs := by
      rw [← contains_eq_true_iff_mem, h1]
      simp
    have hn2 : device.BlueprintName ∉ cfg.BlueprintsExclude.BlueprintNames := by
      rw [← contains_eq_true_iff_mem, h2]
      simp
    simp [deviceMatchesBlueprint, hn1, hn2, h3, h4]

/-- C8, witness: a device whose blueprint id is in both the include and the
exclude sets is rejected (exclude wins), and with no filters at all a device
is admitted. -/
theorem claim_C8_blueprint_witness :
    deviceMatchesBlueprint ⟨true, true, [], [], ⟨["bpX"], []⟩, ⟨["bpX"], []⟩⟩
      ⟨"S9", "mac-9", "o@example.com", "Mac", [], "bpX", "BName"⟩ = false
  ∧ deviceMatchesBlueprint ⟨true, true, [], [], ⟨[], []⟩, ⟨[], []⟩⟩
      ⟨"S9", "mac-9", "o@example.com", "Mac", [], "bpX", "BName"⟩ = true :=
  ⟨(claim_C8_blueprint_exclude_priority _ _).1 (Or.inl (by decide)),
   (claim_C8_blueprint_exclude_priority _ _).2 (by decide) (by decide) rfl rfl⟩

set_option maxHeartbeats 1600000 in
/-- C9: the eligibility filter applies its rules in the fixed source order —
empty identifier, ownership, mobile platform, include tags, exclude tags,
blueprint — with the first rejection short-circuiting: each rejection outcome
occurs exactly when every earlier rule passes and that rule fails, and the
device is eligible exactly when all six rules pass.  In particular a device
with an empty identifier is always rejected, and a device with an empty
owner-email is rejected by the ownership rule exactly when the policy
requires ownership. -/
theorem claim_C9_filter_fixed_order :
    ∀ (cfg : KandjiConfig) (device : Device),
      ((filterDevice cfg device = .rejectedEmptySerial ↔ ¬passesSerialRule device)
      ∧ (filterDevice cfg device = .rejectedNoOwner ↔
          passesSerialRule device ∧ ¬passesOwnerRule cfg device)
      ∧ (filterDevice cfg device = .rejectedMobile ↔
          passesSerialRule device ∧ passesOwnerRule cfg device
          ∧ ¬passesMobileRule cfg device)
      ∧ (filterDevice cfg device = .rejectedIncludeTags ↔
          passesSerialRule device ∧ passesOwnerRule cfg device
          ∧ passesMobileRule cfg device ∧ ¬passesIncludeTagsRule cfg device)
      ∧ (filterDevice cfg device = .rejectedExcludeTags ↔
          passesSerialRule device ∧ passesOwnerRule cfg device
          ∧ passesMobileRule cfg device ∧ passesIncludeTagsRule cfg device
          ∧ ¬passesExcludeTagsRule cfg device)
      ∧ (filterDevice cfg device = .rejectedBlueprint ↔
          passesSerialRule device ∧ passesOwnerRule cfg device
          ∧ passesMobileRule cfg device ∧ passesIncludeTagsRule cfg device
          ∧ passesExcludeTagsRule cfg device ∧ ¬passesBlueprintRule cfg device)
      ∧ (deviceEligible cfg device = true ↔
          passesSerialRule device ∧ passesOwnerRule cfg device
          ∧ passesMobileRule cfg device ∧ passesIncludeTagsRule cfg device
          ∧ passesExcludeTagsRule cfg device ∧ passesBlueprintRule cfg device))
    ∧ (device.SerialNumber = "" → deviceEligible cfg device = false)
    ∧ (device.UserEmail = "" →
        (filterDevice cfg device = .rejectedNoOwner ↔
          device.SerialNumber ≠ "" ∧ cfg.SyncDevicesWithoutOwners = false)) := by
  intro cfg device
  unfold deviceEligible filterDevice passesSerialRule passesOwnerRule passesMobileRule
    passesIncludeTagsRule passesExcludeTagsRule passesBlueprintRule
  split_ifs with h1 h2 h3 h4 h5 h6 <;>
    (try simp_all [not_or, Bool.not_eq_true, and_assoc]) <;>
    (try (intro he
          rcases Bool.eq_false_or_eq_true cfg.SyncDevicesWithoutOwners with hb | hb <;>
            first
              | exact absurd he (h2 hb)
              | exact hb))

/-- C9, witness: the order theorem applied to a config that requires
ownership, once at a device with an empty serial (rejected) and once at an
owned-serial device with an empty owner-email (rejected by the ownership
rule). -/
theorem claim_C9_filter_witness :
    deviceEligible ⟨false, true, [], [], ⟨[], []⟩, ⟨[], []⟩⟩
      ⟨"", "mac-0", "o@example.com", "Mac", [], "", ""⟩ = false
  ∧ filterDevice ⟨false, true, [], [], ⟨[], []⟩, ⟨[], []⟩⟩
      ⟨"S2", "mac-2", "", "Mac", [], "", ""⟩ = .rejectedNoOwner :=
  ⟨(claim_C9_filter_fixed_order _ _).2.1 rfl,
   ((claim_C9_filter_fixed_order _ _).2.2 rfl).mpr ⟨by decide, rfl⟩⟩

end KCSync
